import Mathlib

/-!
Shallow embedding of the JWT authentication / session subsystem of the
contact-management backend (src/src/services/auth.py, together with
src/src/repository/users.py).

Modelling conventions:
* Time is an integer count of seconds (`Int`); `datetime.utcnow()` inside one
  call of an issuer is modelled as a single instant `now`.
* A JWT is modelled as its decoded claim set together with the signing key and
  algorithm that produced it (`Token`); `jwt.encode` is the constructor and
  `jwtDecode` checks the key/algorithm pair and the `exp` claim exactly as the
  jose library does: a key or algorithm mismatch (which also covers a
  syntactically malformed token) and an `exp` strictly in the past both raise
  a `JWTError`.
* Python dictionary access `payload["k"]` on a possibly-missing key is
  modelled by `Option`: `none` means the key is absent and the access raises
  `KeyError`.  The `sub` claim value may additionally be JSON `null`
  (`some none`), matching the `if email is None` check in the code.
* Python exceptions that escape the functions under verification are the
  constructors of `Exc`.  `await` applied to the return value of the
  synchronous redis client (a `bool`, not an awaitable) raises `TypeError`,
  which `get_current_user` lines 171-172 do on the cache-miss path.
* The redis cache is an association list of key / value / time-to-live
  entries; `pickle.dumps` / `pickle.loads` form an exact round trip on the
  modelled `User` record.
-/

/-- Modelled from the spec: the `User` identity record of the persistence
store.  The repository file `src/database/models.py` is not included under
`src/`; its attributes are taken from section 3 of the spec: `id`, `email`,
`password_hash`, `confirmed`, `refresh_token` (nullable), `avatar`
(nullable). -/
structure User where
  id : Nat
  email : String
  password_hash : String
  confirmed : Bool
  refresh_token : Option String
  avatar : Option String
deriving DecidableEq, Repr

/-- A pickled byte string.  `pickle.dumps` on a `User` is injective and
`pickle.loads` inverts it, so the byte string is modelled by the snapshot it
encodes. -/
structure Bytes where
  snapshot : User
deriving DecidableEq, Repr

/-- `pickle.dumps(user)` (auth.py line 170). -/
def pickle_dumps (u : User) : Bytes := ⟨u⟩

/-- `pickle.loads(user_data)` (auth.py line 175). -/
def pickle_loads (b : Bytes) : User := b.snapshot

/-- The decoded JWT claim set.  Only the claims the subsystem reads are
modelled.  `sub`: outer `none` = key absent, `some none` = JSON null,
`some (some e)` = the subject email `e`.  `scope`, `iat`, `exp`: `none` =
claim absent. -/
structure Payload where
  sub : Option (Option String)
  scope : Option String
  iat : Option Int
  exp : Option Int
deriving DecidableEq, Repr

/-- A signed token: the claim set plus the key and algorithm it was signed
with (auth.py `jwt.encode(to_encode, self.SECRET_KEY, algorithm=self.ALGORITHM)`). -/
structure Token where
  payload : Payload
  key : String
  alg : String
deriving DecidableEq, Repr

/-- `settings.secret_key_jwt` (src/conf/config.py): process-wide signing
secret, read-only after startup. -/
def SECRET_KEY : String := "secret_key"

/-- `settings.algorithm` (src/conf/config.py). -/
def ALGORITHM : String := "HS256"

/-- `jwt.encode(payload, key, algorithm=alg)`. -/
def jwtEncode (p : Payload) (key alg : String) : Token := ⟨p, key, alg⟩

/-- The jose exceptions caught by `except JWTError`: signature / structural
failure and expiry. -/
inductive JWTError where
  | signatureError
  | expiredSignature
deriving DecidableEq, Repr

/-- `jwt.decode(token, key, algorithms=[alg])` at time `now`: rejects a
key or algorithm mismatch (equivalently a malformed or forged token) and a
token whose `exp` claim is strictly in the past (jose raises
`ExpiredSignatureError` when `exp < now`); otherwise returns the claim set. -/
def jwtDecode (t : Token) (key alg : String) (now : Int) : Except JWTError Payload :=
  if t.key = key ∧ t.alg = alg then
    match t.payload.exp with
    | none => Except.ok t.payload
    | some e => if e < now then Except.error JWTError.expiredSignature else Except.ok t.payload
  else Except.error JWTError.signatureError

/-- Python truthiness of the `expires_delta : Optional[float]` argument:
`None` and `0` are falsy, every other number is truthy. -/
def pyTruthy : Option Int → Bool
  | none => false
  | some d => d != 0

/-- `Auth.create_access_token` (auth.py lines 59-75): copy the claims of the caller, set `exp = now + expires_delta` when `expires_delta` is truthy and
`now + 15 minutes` otherwise, set `iat = now` and `scope = "access_token"`,
and sign. -/
def create_access_token (data : Payload) (expires_delta : Option Int) (now : Int) : Token :=
  let expire : Int := if pyTruthy expires_delta then now + expires_delta.getD 0 else now + 900
  jwtEncode ⟨data.sub, some "access_token", some now, some expire⟩ SECRET_KEY ALGORITHM

/-- `Auth.create_refresh_token` (auth.py lines 78-97): same shape with
default expiry `now + 7 days` and `scope = "refresh_token"`. -/
def create_refresh_token (data : Payload) (expires_delta : Option Int) (now : Int) : Token :=
  let expire : Int := if pyTruthy expires_delta then now + expires_delta.getD 0 else now + 604800
  jwtEncode ⟨data.sub, some "refresh_token", some now, some expire⟩ SECRET_KEY ALGORITHM

/-- `Auth.create_email_token` (auth.py lines 99-115): fixed expiry
`now + 1 day`, `scope = "email_token"`, no ttl parameter. -/
def create_email_token (data : Payload) (now : Int) : Token :=
  jwtEncode ⟨data.sub, some "email_token", some now, some (now + 86400)⟩ SECRET_KEY ALGORITHM

/-- Python exceptions observable from the functions under verification. -/
inductive Exc where
  | HTTPException (statusCode : Nat) (detail : String)
  | KeyError (key : String)
  | TypeError (msg : String)
deriving DecidableEq, Repr

/-- `credentials_exception` of `Auth.get_current_user` (auth.py lines
147-150). -/
def credentials_exception : Exc :=
  Exc.HTTPException 401 "Could not validate credentials"

/-- One redis entry: key, pickled value, remaining time-to-live (`none` =
no expiry set on the key). -/
structure CacheEntry where
  key : String
  value : Bytes
  ttl : Option Int
deriving DecidableEq, Repr

/-- The redis database: an association list of entries, most recent first. -/
abbrev Cache := List CacheEntry

/-- `redis.get(k)`: the value stored under `k`, or `None`. -/
def cacheGet (c : Cache) (k : String) : Option Bytes :=
  (c.find? (fun e => e.key == k)).map (fun e => e.value)

/-- `redis.set(k, v)`: store `v` under `k`, discarding any previous value
and any previous time-to-live (redis SET clears the TTL). -/
def cacheSet (c : Cache) (k : String) (v : Bytes) : Cache :=
  ⟨k, v, none⟩ :: c.filter (fun e => e.key != k)

/-- `redis.expire(k, seconds)`: set the time-to-live of an existing key,
leaving absent keys alone. -/
def cacheExpire (c : Cache) (k : String) (seconds : Int) : Cache :=
  c.map (fun e => if e.key == k then ⟨e.key, e.value, some seconds⟩ else e)

/-- The persistence store visible to `repository_users`: the `users`
table. -/
structure Db where
  users : List User
deriving DecidableEq, Repr

/-- `repository.users.get_user_by_email` (users.py lines 8-16):
`db.query(User).filter(User.email == email).first()`. -/
def get_user_by_email (email : String) (db : Db) : Option User :=
  db.users.find? (fun u => u.email == email)

deriving instance DecidableEq for Except

/-- Observable outcome of one `Auth.get_current_user` call: the returned
user or escaped exception, the cache state afterwards, and how many
persistence-store lookups were performed. -/
structure GcuOut where
  result : Except Exc User
  cache : Cache
  dbLookups : Nat
deriving DecidableEq, Repr

/-- `Auth.get_current_user` (auth.py lines 136-177).  Decode the token
(`except JWTError` maps decode failures to `credentials_exception`), read
`payload["scope"]` (KeyError when absent, uncaught), require
`scope == "access_token"`, read `payload["sub"]` (KeyError when absent,
uncaught), reject a null subject, then resolve the user cache-aside: on a
hit return the unpickled snapshot; on a miss query the store, reject an
unknown user, otherwise pickle and `self.redis.set` the snapshot — at which
point `await` applied to the boolean return of the synchronous redis client
raises `TypeError`, so `redis.expire` is never reached and no user is
returned on this path. -/
def get_current_user (t : Token) (db : Db) (cache : Cache) (now : Int) : GcuOut :=
  match jwtDecode t SECRET_KEY ALGORITHM now with
  | Except.error _ => ⟨Except.error credentials_exception, cache, 0⟩
  | Except.ok payload =>
    match payload.scope with
    | none => ⟨Except.error (Exc.KeyError "scope"), cache, 0⟩
    | some sc =>
      if sc = "access_token" then
        match payload.sub with
        | none => ⟨Except.error (Exc.KeyError "sub"), cache, 0⟩
        | some none => ⟨Except.error credentials_exception, cache, 0⟩
        | some (some email) =>
          match cacheGet cache ("user:" ++ email) with
          | some user_data => ⟨Except.ok (pickle_loads user_data), cache, 0⟩
          | none =>
            match get_user_by_email email db with
            | none => ⟨Except.error credentials_exception, cache, 1⟩
            | some user =>
              ⟨Except.error (Exc.TypeError "bool is not awaitable"),
               cacheSet cache ("user:" ++ email) (pickle_dumps user), 1⟩
      else ⟨Except.error credentials_exception, cache, 0⟩

/-- `Auth.decode_refresh_token` (auth.py lines 117-134): decode failures
become `HTTPException(401, "Could not validate credentials")`; a missing
`scope` key raises `KeyError` (the `except JWTError` clause does not catch
it); a scope other than `refresh_token` raises
`HTTPException(401, "Invalid scope for token")` (an `HTTPException` raised
inside the `try` is likewise not caught); otherwise `payload["sub"]` is
returned (KeyError when absent). -/
def decode_refresh_token (t : Token) (now : Int) : Except Exc (Option String) :=
  match jwtDecode t SECRET_KEY ALGORITHM now with
  | Except.error _ => Except.error (Exc.HTTPException 401 "Could not validate credentials")
  | Except.ok payload =>
    match payload.scope with
    | none => Except.error (Exc.KeyError "scope")
    | some sc =>
      if sc = "refresh_token" then
        match payload.sub with
        | none => Except.error (Exc.KeyError "sub")
        | some email => Except.ok email
      else Except.error (Exc.HTTPException 401 "Invalid scope for token")

/-- `Auth.get_email_from_token` (auth.py lines 179-199): decode failures
become `HTTPException(422, "Invalid token for email verification")`; a
missing `scope` key raises `KeyError`; a scope other than `email_token`
raises `HTTPException(401, "Invalid scope for token")` — raised inside the
`try` but not a `JWTError`, so it propagates as is; otherwise
`payload["sub"]` is returned (KeyError when absent). -/
def get_email_from_token (t : Token) (now : Int) : Except Exc (Option String) :=
  match jwtDecode t SECRET_KEY ALGORITHM now with
  | Except.error _ => Except.error (Exc.HTTPException 422 "Invalid token for email verification")
  | Except.ok payload =>
    match payload.scope with
    | none => Except.error (Exc.KeyError "scope")
    | some sc =>
      if sc = "email_token" then
        match payload.sub with
        | none => Except.error (Exc.KeyError "sub")
        | some email => Except.ok email
      else Except.error (Exc.HTTPException 401 "Invalid scope for token")

/-- `exp` claim not strictly in the past at time `now` — the condition under
which `jwtDecode` does not report expiry. -/
def expValid (p : Payload) (now : Int) : Bool :=
  match p.exp with
  | none => true
  | some e => decide (now ≤ e)

/- Concrete fixtures used by witnesses and counterexamples. -/

/-- A persisted user for `a@example.com`. -/
def alice : User := ⟨1, "a@example.com", "hashed", false, none, none⟩

/-- A store containing exactly `alice`. -/
def dbAlice : Db := ⟨[alice]⟩

/-- A well-signed, unexpired access token for `a@example.com` (issued at 0,
expiring at 900). -/
def tokAccess : Token :=
  ⟨⟨some (some "a@example.com"), some "access_token", some 0, some 900⟩, SECRET_KEY, ALGORITHM⟩

/-- A well-signed, unexpired token with `scope = "email_token"` (the cross-scope scenario of the spec). -/
def tokEmailScope : Token :=
  ⟨⟨some (some "a@example.com"), some "email_token", some 0, some 86400⟩, SECRET_KEY, ALGORITHM⟩

/-- A well-signed, unexpired access token whose payload has no `sub` key. -/
def tokNoSub : Token :=
  ⟨⟨none, some "access_token", some 0, some 900⟩, SECRET_KEY, ALGORITHM⟩

/-- A well-signed, unexpired token whose payload has no `scope` key. -/
def tokNoScope : Token :=
  ⟨⟨some (some "a@example.com"), none, some 0, some 900⟩, SECRET_KEY, ALGORITHM⟩

/-- The empty persistence store. -/
def dbEmpty : Db := ⟨[]⟩

/-- A cache already holding the pickled snapshot of `alice` under the key
of her email, with the 900 second time-to-live set. -/
def cacheAlice : Cache := [⟨"user:a@example.com", pickle_dumps alice, some 900⟩]

/-- A token signed with a key other than the configured secret. -/
def tokBadKey : Token :=
  ⟨⟨some (some "a@example.com"), some "access_token", some 0, some 900⟩, "other_key", ALGORITHM⟩

/-- The claim dictionary a login handler passes to the issuers. -/
def payloadA : Payload := ⟨some (some "a@example.com"), none, none, none⟩

/-- Successful decode: correct key and algorithm together with an unexpired
`exp` claim give back the claim set unchanged. -/
theorem jwtDecode_ok (t : Token) (now : Int)
    (hk : t.key = SECRET_KEY) (ha : t.alg = ALGORITHM)
    (hv : expValid t.payload now = true) :
    jwtDecode t SECRET_KEY ALGORITHM now = Except.ok t.payload := by
  unfold jwtDecode
  rw [if_pos ⟨hk, ha⟩]
  split
  next heq => rfl
  next e heq =>
    unfold expValid at hv
    simp only [heq, decide_eq_true_eq] at hv
    rw [if_neg (by omega)]

/-- A token whose `exp` claim is strictly in the past is rejected by
`jwtDecode`, whatever its key and algorithm. -/
theorem jwtDecode_error_of_expired (t : Token) (key alg : String) (now e : Int)
    (hexp : t.payload.exp = some e) (hlt : e < now) :
    ∃ err, jwtDecode t key alg now = Except.error err := by
  unfold jwtDecode
  by_cases h : t.key = key ∧ t.alg = alg
  · rw [if_pos h]
    simp only [hexp]
    rw [if_pos hlt]
    exact ⟨_, rfl⟩
  · rw [if_neg h]
    exact ⟨_, rfl⟩

/-- A key or algorithm mismatch is rejected by `jwtDecode`. -/
theorem jwtDecode_error_of_badkey (t : Token) (now : Int)
    (h : ¬ (t.key = SECRET_KEY ∧ t.alg = ALGORITHM)) :
    jwtDecode t SECRET_KEY ALGORITHM now = Except.error JWTError.signatureError := by
  unfold jwtDecode
  rw [if_neg h]

/-- Any decode failure inside `get_current_user` becomes the uniform
`credentials_exception` and touches neither the cache nor the store. -/
theorem get_current_user_of_decode_error (t : Token) (db : Db) (cache : Cache) (now : Int)
    (err : JWTError) (h : jwtDecode t SECRET_KEY ALGORITHM now = Except.error err) :
    get_current_user t db cache now = ⟨Except.error credentials_exception, cache, 0⟩ := by
  simp only [get_current_user, h]

/-- Any decode failure inside `decode_refresh_token` becomes
`HTTPException(401, "Could not validate credentials")`. -/
theorem decode_refresh_token_of_decode_error (t : Token) (now : Int)
    (err : JWTError) (h : jwtDecode t SECRET_KEY ALGORITHM now = Except.error err) :
    decode_refresh_token t now
      = Except.error (Exc.HTTPException 401 "Could not validate credentials") := by
  simp only [decode_refresh_token, h]

/-- Any decode failure inside `get_email_from_token` becomes
`HTTPException(422, "Invalid token for email verification")`. -/
theorem get_email_from_token_of_decode_error (t : Token) (now : Int)
    (err : JWTError) (h : jwtDecode t SECRET_KEY ALGORITHM now = Except.error err) :
    get_email_from_token t now
      = Except.error (Exc.HTTPException 422 "Invalid token for email verification") := by
  simp only [get_email_from_token, h]

/-- Claim C1 (code bug): on a valid access token, empty cache and a store
that knows the user, `get_current_user` does not return the user with a
900 second cache entry as the spec demands: it performs the one store
lookup, executes the redis SET (leaving a cache entry with NO time-to-live),
and then raises `TypeError`, because line 171 awaits the boolean returned by
the synchronous redis client; the `expire` call on line 172 is never
reached. -/
theorem C1_cache_miss_eval :
    get_current_user tokAccess dbAlice [] 0 =
      ⟨Except.error (Exc.TypeError "bool is not awaitable"),
       [⟨"user:a@example.com", pickle_dumps alice, none⟩], 1⟩ ∧
    (get_current_user tokAccess dbAlice [] 0).result ≠ Except.ok alice ∧
    cacheGet (get_current_user tokAccess dbAlice [] 0).cache "user:a@example.com"
      = some (pickle_dumps alice) := by
  refine ⟨by decide, by decide, by decide⟩

/-- Claim C2: a well-signed token whose decoded scope claim is present and
differs from "access_token" makes `get_current_user` fail with the uniform
`HTTPException(401, "Could not validate credentials")`, returning no user
and leaving the cache untouched. -/
theorem C2_wrong_scope_rejected (t : Token) (db : Db) (cache : Cache) (now : Int) (s : String)
    (hk : t.key = SECRET_KEY) (ha : t.alg = ALGORITHM) (hv : expValid t.payload now = true)
    (hs : t.payload.scope = some s) (hne : s ≠ "access_token") :
    get_current_user t db cache now = ⟨Except.error credentials_exception, cache, 0⟩ := by
  simp only [get_current_user, jwtDecode_ok t now hk ha hv, hs]
  rw [if_neg hne]

/-- Witness for C2 at the concrete scenario of the spec: a well-signed
email-verification token presented to the session guard. -/
theorem C2_wrong_scope_rejected_w :
    get_current_user tokEmailScope dbAlice [] 0 = ⟨Except.error credentials_exception, [], 0⟩ :=
  C2_wrong_scope_rejected tokEmailScope dbAlice [] 0 "email_token" rfl rfl (by decide) rfl
    (by decide)

/-- Counterexample to claim C3 as stated: a well-signed, unexpired access
token whose payload has no `sub` key makes `get_current_user` raise
`KeyError("sub")` — not the claimed `AuthenticationError` with detail
"Could not validate credentials". -/
theorem C3_cex :
    (get_current_user tokNoSub dbAlice [] 0).result = Except.error (Exc.KeyError "sub") ∧
    Exc.KeyError "sub" ≠ credentials_exception := by
  refine ⟨by decide, by decide⟩

/-- Claim C3 as amended: a token that decodes with scope "access_token" but
whose subject claim is absent from the payload makes `get_current_user`
raise `KeyError("sub")` from the unguarded access `payload["sub"]`, which
the `except JWTError` handler does not catch; only a subject that is
present but null yields the uniform `AuthenticationError`. -/
theorem C3_missing_sub_keyerror (t : Token) (db : Db) (cache : Cache) (now : Int)
    (hk : t.key = SECRET_KEY) (ha : t.alg = ALGORITHM) (hv : expValid t.payload now = true)
    (hs : t.payload.scope = some "access_token") :
    (t.payload.sub = none →
      get_current_user t db cache now = ⟨Except.error (Exc.KeyError "sub"), cache, 0⟩) ∧
    (t.payload.sub = some none →
      get_current_user t db cache now = ⟨Except.error credentials_exception, cache, 0⟩) := by
  constructor
  · intro hsub
    simp only [get_current_user, jwtDecode_ok t now hk ha hv, hs, hsub]
    rw [if_pos trivial]
  · intro hsub
    simp only [get_current_user, jwtDecode_ok t now hk ha hv, hs, hsub]
    rw [if_pos trivial]

/-- Witness for the amended C3 at a concrete missing-subject token. -/
theorem C3_missing_sub_keyerror_w :
    get_current_user tokNoSub dbAlice [] 0 = ⟨Except.error (Exc.KeyError "sub"), [], 0⟩ :=
  (C3_missing_sub_keyerror tokNoSub dbAlice [] 0 rfl rfl (by decide) rfl).1 rfl

/-- Counterexample to claim C4 as stated: issuing with ttl_seconds = 0 does
NOT produce a token whose expiry is in the past.  `0` is falsy in Python, so
`if expires_delta:` takes the default branch: the token expires 900 seconds
in the future and decodes successfully at issuance time. -/
theorem C4_cex :
    (create_access_token payloadA (some 0) 0).payload.exp = some 900 ∧
    ¬ (900 : Int) < 0 ∧
    jwtDecode (create_access_token payloadA (some 0) 0) SECRET_KEY ALGORITHM 0
      = Except.ok ⟨some (some "a@example.com"), some "access_token", some 0, some 900⟩ := by
  refine ⟨by decide, by decide, by decide⟩

/-- Claim C4 as amended: a token whose `exp` claim is strictly in the past
is rejected by all three consumers (`get_current_user`,
`decode_refresh_token`, `get_email_from_token`); issuing with a strictly
negative ttl_seconds produces such a past expiry, while ttl_seconds = 0 is
falsy and falls back to the default ttl (see the counterexample). -/
theorem C4_expired_rejected :
    (∀ (t : Token) (db : Db) (cache : Cache) (now e : Int),
        t.payload.exp = some e → e < now →
        get_current_user t db cache now = ⟨Except.error credentials_exception, cache, 0⟩) ∧
    (∀ (t : Token) (now e : Int), t.payload.exp = some e → e < now →
        decode_refresh_token t now
          = Except.error (Exc.HTTPException 401 "Could not validate credentials")) ∧
    (∀ (t : Token) (now e : Int), t.payload.exp = some e → e < now →
        get_email_from_token t now
          = Except.error (Exc.HTTPException 422 "Invalid token for email verification")) ∧
    (∀ (data : Payload) (d now : Int), d < 0 →
        (create_access_token data (some d) now).payload.exp = some (now + d) ∧ now + d < now) ∧
    (∀ (data : Payload) (d now : Int), d < 0 →
        (create_refresh_token data (some d) now).payload.exp = some (now + d) ∧ now + d < now) := by
  refine ⟨?_, ?_, ?_, ?_, ?_⟩
  · intro t db cache now e hexp hlt
    obtain ⟨err, herr⟩ := jwtDecode_error_of_expired t SECRET_KEY ALGORITHM now e hexp hlt
    exact get_current_user_of_decode_error t db cache now err herr
  · intro t now e hexp hlt
    obtain ⟨err, herr⟩ := jwtDecode_error_of_expired t SECRET_KEY ALGORITHM now e hexp hlt
    exact decode_refresh_token_of_decode_error t now err herr
  · intro t now e hexp hlt
    obtain ⟨err, herr⟩ := jwtDecode_error_of_expired t SECRET_KEY ALGORITHM now e hexp hlt
    exact get_email_from_token_of_decode_error t now err herr
  · intro data d now hd
    have ht : pyTruthy (some d) = true := by
      simp only [pyTruthy, bne_iff_ne, ne_eq]
      omega
    refine ⟨?_, by omega⟩
    simp only [create_access_token, jwtEncode]
    rw [if_pos ht]
    rfl
  · intro data d now hd
    have ht : pyTruthy (some d) = true := by
      simp only [pyTruthy, bne_iff_ne, ne_eq]
      omega
    refine ⟨?_, by omega⟩
    simp only [create_refresh_token, jwtEncode]
    rw [if_pos ht]
    rfl

/-- Witness for the amended C4: the concrete access token expired at 900 is
rejected by all three consumers at time 1000, and issuing with
ttl_seconds = -5 at time 0 yields expiry -5, which is in the past. -/
theorem C4_expired_rejected_w :
    get_current_user tokAccess dbAlice [] 1000 = ⟨Except.error credentials_exception, [], 0⟩ ∧
    decode_refresh_token tokAccess 1000
      = Except.error (Exc.HTTPException 401 "Could not validate credentials") ∧
    get_email_from_token tokAccess 1000
      = Except.error (Exc.HTTPException 422 "Invalid token for email verification") ∧
    ((create_access_token payloadA (some (-5)) 0).payload.exp = some ((0 : Int) + -5)
      ∧ (0 : Int) + -5 < 0) ∧
    ((create_refresh_token payloadA (some (-5)) 0).payload.exp = some ((0 : Int) + -5)
      ∧ (0 : Int) + -5 < 0) :=
  ⟨C4_expired_rejected.1 tokAccess dbAlice [] 1000 900 rfl (by decide),
   C4_expired_rejected.2.1 tokAccess 1000 900 rfl (by decide),
   C4_expired_rejected.2.2.1 tokAccess 1000 900 rfl (by decide),
   C4_expired_rejected.2.2.2.1 payloadA (-5) 0 (by decide),
   C4_expired_rejected.2.2.2.2 payloadA (-5) 0 (by decide)⟩

/-- Claim C5: a valid access token whose subject email is in neither the
cache nor the persistence store makes `get_current_user` fail with the
uniform `credentials_exception` after exactly one store lookup, and the
cache is left unchanged — nothing is written under "user:" + email. -/
theorem C5_unknown_user (t : Token) (db : Db) (cache : Cache) (now : Int) (email : String)
    (hk : t.key = SECRET_KEY) (ha : t.alg = ALGORITHM) (hv : expValid t.payload now = true)
    (hs : t.payload.scope = some "access_token") (hsub : t.payload.sub = some (some email))
    (hmiss : cacheGet cache ("user:" ++ email) = none)
    (hdb : get_user_by_email email db = none) :
    get_current_user t db cache now = ⟨Except.error credentials_exception, cache, 1⟩ := by
  simp only [get_current_user, jwtDecode_ok t now hk ha hv, hs, hsub, hmiss, hdb]
  rw [if_pos trivial]

/-- Witness for C5: the concrete valid access token for a@example.com
against an empty cache and an empty store. -/
theorem C5_unknown_user_w :
    get_current_user tokAccess dbEmpty [] 0 = ⟨Except.error credentials_exception, [], 1⟩ :=
  C5_unknown_user tokAccess dbEmpty [] 0 "a@example.com" rfl rfl (by decide) rfl rfl
    (by decide) (by decide)

/-- Claim C6: when the cache holds an entry under "user:" + email, a valid
access token resolves to the deserialized cached snapshot with zero
persistence-store lookups and an unchanged cache — whatever the store now
contains, so the snapshot is served until expiry regardless of later
mutations. -/
theorem C6_cache_hit (t : Token) (db : Db) (cache : Cache) (now : Int) (email : String)
    (b : Bytes)
    (hk : t.key = SECRET_KEY) (ha : t.alg = ALGORITHM) (hv : expValid t.payload now = true)
    (hs : t.payload.scope = some "access_token") (hsub : t.payload.sub = some (some email))
    (hhit : cacheGet cache ("user:" ++ email) = some b) :
    get_current_user t db cache now = ⟨Except.ok (pickle_loads b), cache, 0⟩ := by
  simp only [get_current_user, jwtDecode_ok t now hk ha hv, hs, hsub, hhit]
  rw [if_pos trivial]

/-- Witness for C6: with the snapshot of alice cached, the guard returns
alice and performs zero store lookups even against an empty store (the
strongest later mutation: the user was deleted). -/
theorem C6_cache_hit_w :
    get_current_user tokAccess dbEmpty cacheAlice 0
      = ⟨Except.ok (pickle_loads (pickle_dumps alice)), cacheAlice, 0⟩ :=
  C6_cache_hit tokAccess dbEmpty cacheAlice 0 "a@example.com" (pickle_dumps alice)
    rfl rfl (by decide) rfl rfl (by decide)

/-- Claim C7: round trip — for every claim set containing a subject,
`create_access_token` with the default ttl followed by immediate decoding
with the same secret and algorithm yields a payload with the same subject
and scope "access_token". -/
theorem C7_roundtrip (data : Payload) (now : Int) (email : String)
    (hsub : data.sub = some (some email)) :
    ∃ p, jwtDecode (create_access_token data none now) SECRET_KEY ALGORITHM now = Except.ok p
      ∧ p.sub = some (some email) ∧ p.scope = some "access_token" := by
  refine ⟨⟨data.sub, some "access_token", some now, some (now + 900)⟩, ?_, by rw [hsub], rfl⟩
  have henc : create_access_token data none now
      = ⟨⟨data.sub, some "access_token", some now, some (now + 900)⟩, SECRET_KEY, ALGORITHM⟩ := rfl
  rw [henc]
  exact jwtDecode_ok _ now rfl rfl (by simp only [expValid, decide_eq_true_eq]; omega)

/-- Witness for C7 at the concrete claim set for a@example.com issued at
time 0. -/
theorem C7_roundtrip_w :
    ∃ p, jwtDecode (create_access_token payloadA none 0) SECRET_KEY ALGORITHM 0 = Except.ok p
      ∧ p.sub = some (some "a@example.com") ∧ p.scope = some "access_token" :=
  C7_roundtrip payloadA 0 "a@example.com" rfl

/-- Claim C8: each issuer embeds issued_at = now, expires_at = now + ttl
and its fixed scope: `create_access_token` defaults to ttl 900 seconds with
scope "access_token" when the ttl argument is omitted,
`create_refresh_token` defaults to ttl 7 days (604800 s) with scope
"refresh_token", and `create_email_token` uses the fixed ttl 1 day
(86400 s) with scope "email_token". -/
theorem C8_issuer_defaults (data : Payload) (now : Int) :
    create_access_token data none now
      = ⟨⟨data.sub, some "access_token", some now, some (now + 900)⟩, SECRET_KEY, ALGORITHM⟩ ∧
    create_refresh_token data none now
      = ⟨⟨data.sub, some "refresh_token", some now, some (now + 604800)⟩, SECRET_KEY, ALGORITHM⟩ ∧
    create_email_token data now
      = ⟨⟨data.sub, some "email_token", some now, some (now + 86400)⟩, SECRET_KEY, ALGORITHM⟩ :=
  ⟨rfl, rfl, rfl⟩

/-- Counterexample to claim C9 as stated: a well-signed, unexpired token
with scope "access_token" presented to `get_email_from_token` fails with
`HTTPException(401, "Invalid scope for token")` — raised inside the `try`
but not a `JWTError`, so it escapes as is — which is not the claimed
uniform `HTTPException(422, "Invalid token for email verification")`. -/
theorem C9_cex :
    get_email_from_token tokAccess 0
      = Except.error (Exc.HTTPException 401 "Invalid scope for token") ∧
    Exc.HTTPException 401 "Invalid scope for token"
      ≠ Exc.HTTPException 422 "Invalid token for email verification" := by
  refine ⟨by decide, by decide⟩

/-- Claim C9 as amended: `get_email_from_token` reports
`HTTPException(422, "Invalid token for email verification")` exactly for
decode failures (bad key or algorithm, expired token); a well-signed token
whose scope is present but differs from "email_token" instead fails with
`HTTPException(401, "Invalid scope for token")`; a well-signed token with
scope "email_token" and a subject key yields the subject. -/
theorem C9_email_verification_errors :
    (∀ (t : Token) (now : Int), ¬ (t.key = SECRET_KEY ∧ t.alg = ALGORITHM) →
        get_email_from_token t now
          = Except.error (Exc.HTTPException 422 "Invalid token for email verification")) ∧
    (∀ (t : Token) (now e : Int), t.payload.exp = some e → e < now →
        get_email_from_token t now
          = Except.error (Exc.HTTPException 422 "Invalid token for email verification")) ∧
    (∀ (t : Token) (now : Int) (s : String),
        t.key = SECRET_KEY → t.alg = ALGORITHM → expValid t.payload now = true →
        t.payload.scope = some s → s ≠ "email_token" →
        get_email_from_token t now
          = Except.error (Exc.HTTPException 401 "Invalid scope for token")) ∧
    (∀ (t : Token) (now : Int) (email : Option String),
        t.key = SECRET_KEY → t.alg = ALGORITHM → expValid t.payload now = true →
        t.payload.scope = some "email_token" → t.payload.sub = some email →
        get_email_from_token t now = Except.ok email) := by
  refine ⟨?_, ?_, ?_, ?_⟩
  · intro t now h
    exact get_email_from_token_of_decode_error t now _ (jwtDecode_error_of_badkey t now h)
  · intro t now e hexp hlt
    obtain ⟨err, herr⟩ := jwtDecode_error_of_expired t SECRET_KEY ALGORITHM now e hexp hlt
    exact get_email_from_token_of_decode_error t now err herr
  · intro t now s hk ha hv hs hne
    simp only [get_email_from_token, jwtDecode_ok t now hk ha hv, hs]
    rw [if_neg hne]
  · intro t now email hk ha hv hs hsub
    simp only [get_email_from_token, jwtDecode_ok t now hk ha hv, hs, hsub]
    rw [if_pos trivial]

/-- Witness for the amended C9: a token under a wrong key, an expired
email token, a wrong-scope token and a proper email token, each at a
concrete instant. -/
theorem C9_email_verification_errors_w :
    get_email_from_token tokBadKey 0
      = Except.error (Exc.HTTPException 422 "Invalid token for email verification") ∧
    get_email_from_token tokEmailScope 100000
      = Except.error (Exc.HTTPException 422 "Invalid token for email verification") ∧
    get_email_from_token tokAccess 0
      = Except.error (Exc.HTTPException 401 "Invalid scope for token") ∧
    get_email_from_token tokEmailScope 0 = Except.ok (some "a@example.com") :=
  ⟨C9_email_verification_errors.1 tokBadKey 0 (by decide),
   C9_email_verification_errors.2.1 tokEmailScope 100000 86400 rfl (by decide),
   C9_email_verification_errors.2.2.1 tokAccess 0 "access_token" rfl rfl (by decide) rfl
     (by decide),
   C9_email_verification_errors.2.2.2 tokEmailScope 0 (some "a@example.com") rfl rfl
     (by decide) rfl rfl⟩

/-- Claim C10: a token correctly signed with the configured secret and
unexpired but whose payload has no "scope" key makes `get_current_user`,
`decode_refresh_token` and `get_email_from_token` each raise
`KeyError("scope")` from the unguarded dictionary access, which the
`except JWTError` handler does not catch — not their documented
AuthenticationError / TokenError. -/
theorem C10_missing_scope_keyerror (t : Token) (db : Db) (cache : Cache) (now : Int)
    (hk : t.key = SECRET_KEY) (ha : t.alg = ALGORITHM) (hv : expValid t.payload now = true)
    (hs : t.payload.scope = none) :
    get_current_user t db cache now = ⟨Except.error (Exc.KeyError "scope"), cache, 0⟩ ∧
    decode_refresh_token t now = Except.error (Exc.KeyError "scope") ∧
    get_email_from_token t now = Except.error (Exc.KeyError "scope") := by
  refine ⟨?_, ?_, ?_⟩
  · simp only [get_current_user, jwtDecode_ok t now hk ha hv, hs]
  · simp only [decode_refresh_token, jwtDecode_ok t now hk ha hv, hs]
  · simp only [get_email_from_token, jwtDecode_ok t now hk ha hv, hs]

/-- Witness for C10 at a concrete well-signed token with no scope claim. -/
theorem C10_missing_scope_keyerror_w :
    get_current_user tokNoScope dbAlice [] 0 = ⟨Except.error (Exc.KeyError "scope"), [], 0⟩ ∧
    decode_refresh_token tokNoScope 0 = Except.error (Exc.KeyError "scope") ∧
    get_email_from_token tokNoScope 0 = Except.error (Exc.KeyError "scope") :=
  C10_missing_scope_keyerror tokNoScope dbAlice [] 0 rfl rfl (by decide) rfl
